import Mathlib

set_option linter.unusedVariables false

/-!
Shallow embedding of `src/hippocampus_common/node.py`, a thin wrapper around
the ROS client library (`rospy`).  The parameter server is an external
key-value store; we model it as an association list inside a `RosState`
together with the log produced so far, the registered node name, and the
sequence of node-registration calls made to the framework.  Framework calls
can fail: a missing key in `rospy.get_param` raises `KeyError`, and any
framework call may raise some other exception (network errors, init errors),
which we model with an explicit fault-injection argument.
-/

/-- A Python exception as visible to this module: either the `KeyError`
raised by `rospy.get_param` on a missing key, or any other exception. -/
inductive PyExc where
  | keyError : PyExc
  | other : String → PyExc
deriving DecidableEq, Repr

/-- A log line produced via `rospy.loginfo` or `rospy.logwarn`. -/
inductive LogMsg where
  | info : String → LogMsg
  | warn : String → LogMsg
deriving DecidableEq, Repr

/-- One call of the framework node-registration primitive `rospy.init_node`,
recording exactly the arguments it received. -/
structure InitCall where
  nodeName : String
  anonymous : Bool
  disable_signals : Bool
deriving DecidableEq, Repr

/-- The observable state of the ROS framework as seen by this module:
the remote parameter store, the produced log, the current node name
(returned by `rospy.get_name`), and the registration calls made so far. -/
structure RosState (α : Type) where
  nodeName : String
  store : List (String × α)
  log : List LogMsg
  initCalls : List InitCall
deriving DecidableEq, Repr

/-- Lookup in the parameter store (first binding wins, as later
`rospy.set_param` writes shadow earlier ones). -/
def storeLookup {α : Type} (store : List (String × α)) (name : String) : Option α :=
  match store.find? (fun p => p.1 == name) with
  | some p => some p.2
  | none => none

/-- `rospy.get_param`: raises `KeyError` when the key is absent; `fault`
injects any other framework exception (e.g. a remote-store error). -/
def rospyGetParam {α : Type} (st : RosState α) (fault : Option String)
    (name : String) : Except PyExc α :=
  match fault with
  | some msg => .error (.other msg)
  | none =>
    match storeLookup st.store name with
    | some v => .ok v
    | none => .error .keyError

/-- `rospy.set_param`: writes the value to the remote store; `fault` injects
a framework exception instead. -/
def rospySetParam {α : Type} (st : RosState α) (fault : Option String)
    (name : String) (v : α) : Except PyExc (RosState α) :=
  match fault with
  | some msg => .error (.other msg)
  | none => .ok { st with store := (name, v) :: st.store }

/-- `rospy.loginfo`. -/
def rospyLoginfo {α : Type} (st : RosState α) (msg : String) : RosState α :=
  { st with log := st.log ++ [LogMsg.info msg] }

/-- `rospy.logwarn`. -/
def rospyLogwarn {α : Type} (st : RosState α) (msg : String) : RosState α :=
  { st with log := st.log ++ [LogMsg.warn msg] }

/-- `rospy.init_node(name, anonymous=..., disable_signals=...)`: registers
the node under `name` and records the exact arguments; `fault` injects a
framework initialization exception. -/
def rospyInitNode {α : Type} (st : RosState α) (fault : Option String)
    (name : String) (anonymous : Bool) (disable_signals : Bool) :
    Except PyExc (RosState α) :=
  match fault with
  | some msg => .error (.other msg)
  | none =>
    .ok { st with
          nodeName := name,
          initCalls := st.initCalls ++ [⟨name, anonymous, disable_signals⟩] }

/-- A single quote character, used verbatim in the log messages of the
source. -/
def quoteChar : String := "\x27"

/-- The truncation applied before logging in `get_param` and `set_param`:
`if limit > 0 and len(s) > limit: s = s[:limit] + "..."`. -/
def truncate (limit : Int) (s : String) : String :=
  if limit > 0 ∧ (s.length : Int) > limit then s.take limit.toNat ++ "..." else s

/-- `Node.__init__(self, name, anonymous=False, disable_signals=False)`:
calls `rospy.init_node(name, anonymous=anonymous,
disable_signals=disable_signals)` and then logs
`"[{}] Initialized.".format(rospy.get_name())`. -/
def Node.init {α : Type} (st : RosState α) (fault : Option String)
    (name : String) (anonymous : Bool) (disable_signals : Bool) :
    Except PyExc (RosState α) :=
  match rospyInitNode st fault name anonymous disable_signals with
  | .error e => .error e
  | .ok st1 => .ok (rospyLoginfo st1 ("[" ++ st1.nodeName ++ "] Initialized."))

/-- The loop `while not rospy.is_shutdown(): rospy.spin()` over a finite
trace of successive `rospy.is_shutdown()` observations.  Returns the number
of `rospy.spin()` calls made before the loop exits (equivalently, the index
of the observation at which the loop condition first failed), or `none` when
the trace is exhausted without the shutdown flag ever being observed true
(the loop is still running). -/
def spinLoop : List Bool → Option Nat
  | [] => none
  | b :: rest => if b then some 0 else (spinLoop rest).map (· + 1)

/-- `Node.run(self)`: spins until shutdown is observed, then logs
`"[{}] Shutting down...".format(rospy.get_name())`.  `none` means the loop
has not exited within the observed trace. -/
def Node.run {α : Type} (st : RosState α) (shutdownObs : List Bool) :
    Option (Nat × RosState α) :=
  match spinLoop shutdownObs with
  | none => none
  | some k =>
    some (k, rospyLoginfo st ("[" ++ st.nodeName ++ "] Shutting down..."))

/-- `Node.get_param(name, default=None, verbose=True, limit=80*5)`.
`toStr` models Python's `"{}".format(value)`.  `getFault` / `setFault`
inject non-`KeyError` framework exceptions into the underlying
`rospy.get_param` / `rospy.set_param` calls.  Returns the Python return
value (`none` models Python `None`) together with the resulting framework
state, or the propagated exception. -/
def Node.get_param {α : Type} (toStr : α → String) (st : RosState α)
    (getFault setFault : Option String) (name : String) (default : Option α)
    (verbose : Bool) (limit : Int) : Except PyExc (Option α × RosState α) :=
  match rospyGetParam st getFault name with
  | .error .keyError =>
    match default with
    | none =>
      .ok (none, rospyLogwarn st
        ("[" ++ st.nodeName ++ "] No default value given for parameter " ++
         quoteChar ++ name ++ quoteChar ++ ", unexpected behaviour possible."))
    | some d =>
      match rospySetParam st setFault name d with
      | .error e => .error e
      | .ok st1 =>
        .ok (some d, rospyLogwarn st1
          ("[" ++ st1.nodeName ++ "] Parameter " ++ quoteChar ++ name ++ quoteChar ++
           " does not exist. Using default value " ++ quoteChar ++ toStr d ++ quoteChar ++ "."))
  | .error e => .error e
  | .ok param =>
    let st1 :=
      if verbose then
        rospyLoginfo st
          ("[" ++ st.nodeName ++ "] " ++ name ++ "=" ++ truncate limit (toStr param))
      else st
    .ok (some param, st1)

/-- `Node.set_param(name, value, verbose=True, limit=80*5)`: writes the
value via `rospy.set_param` and logs the (possibly truncated) value.  Note
the source never reads `verbose`. -/
def Node.set_param {α : Type} (toStr : α → String) (st : RosState α)
    (setFault : Option String) (name : String) (value : α) (verbose : Bool)
    (limit : Int) : Except PyExc (RosState α) :=
  match rospySetParam st setFault name value with
  | .error e => .error e
  | .ok st1 =>
    .ok (rospyLoginfo st1
      ("[" ++ st1.nodeName ++ "] " ++ name ++ "=" ++ truncate limit (toStr value)))

/-- A small concrete framework state used by the witnesses. -/
def sampleState : RosState String :=
  { nodeName := "n", store := [("p", "abc")], log := [], initCalls := [] }

/-- A concrete framework state with an empty store, used by the witnesses. -/
def emptyState : RosState String :=
  { nodeName := "n", store := [], log := [], initCalls := [] }

/-- C1: when the parameter server lookup fails with a missing key and a
non-null default is supplied, `get_param` writes the default back to the
store under that name and returns the default value. -/
theorem get_param_missing_default_writes {α : Type} (toStr : α → String)
    (st : RosState α) (name : String) (d : α) (verbose : Bool) (limit : Int)
    (h : storeLookup st.store name = none) :
    ∃ st', Node.get_param toStr st none none name (some d) verbose limit
        = .ok (some d, st') ∧ storeLookup st'.store name = some d := by
  have hget : rospyGetParam st none name = .error .keyError := by
    simp [rospyGetParam, h]
  simp only [Node.get_param, hget, rospySetParam]
  exact ⟨_, rfl, by simp [rospyLogwarn, storeLookup]⟩

theorem get_param_missing_default_writes_witness :
    ∃ st', Node.get_param id emptyState none none "q" (some "d") true 3
        = .ok (some "d", st') ∧ storeLookup st'.store "q" = some "d" :=
  get_param_missing_default_writes id emptyState "q" "d" true 3 (by rfl)

/-- C2: when the parameter is present in the store, `get_param` returns
exactly the stored value, unmodified, for every default, verbose and limit
argument (and leaves the store unchanged). -/
theorem get_param_present_returns_stored {α : Type} (toStr : α → String)
    (st : RosState α) (name : String) (v : α) (default : Option α)
    (verbose : Bool) (limit : Int)
    (h : storeLookup st.store name = some v) :
    ∃ st', Node.get_param toStr st none none name default verbose limit
        = .ok (some v, st') ∧ st'.store = st.store := by
  have hget : rospyGetParam st none name = .ok v := by
    simp [rospyGetParam, h]
  simp only [Node.get_param, hget]
  cases verbose
  · exact ⟨st, rfl, rfl⟩
  · exact ⟨_, rfl, by simp [rospyLoginfo]⟩

theorem get_param_present_returns_stored_witness :
    ∃ st', Node.get_param id sampleState none none "p" (some "zz") true 2
        = .ok (some "abc", st') ∧ st'.store = sampleState.store :=
  get_param_present_returns_stored id sampleState "p" "abc" (some "zz") true 2 (by rfl)

/-- C3: when the lookup fails with a missing key and the default is `None`,
`get_param` returns `None` and performs no write: the store is unchanged. -/
theorem get_param_missing_no_default {α : Type} (toStr : α → String)
    (st : RosState α) (name : String) (verbose : Bool) (limit : Int)
    (h : storeLookup st.store name = none) :
    ∃ st', Node.get_param toStr st none none name none verbose limit
        = .ok (none, st') ∧ st'.store = st.store := by
  have hget : rospyGetParam st none name = .error .keyError := by
    simp [rospyGetParam, h]
  simp only [Node.get_param, hget]
  exact ⟨_, rfl, by simp [rospyLogwarn]⟩

theorem get_param_missing_no_default_witness :
    ∃ st', Node.get_param id emptyState none none "q" none true 3
        = .ok (none, st') ∧ st'.store = emptyState.store :=
  get_param_missing_no_default id emptyState "q" true 3 (by rfl)

/-- C4 fails as stated for non-positive limits: with `limit = 0` the value
`"abc"` has string length greater than the limit, yet the code logs it
unmodified (the guard is `limit > 0 and len > limit`), not truncated to its
first `0` characters plus an ellipsis as the claim requires for every
integer limit. -/
theorem logged_value_truncation_cex :
    Node.get_param id sampleState none none "p" none true 0
      = .ok (some "abc",
        { nodeName := "n", store := [("p", "abc")],
          log := [LogMsg.info "[n] p=abc"], initCalls := [] })
    ∧ (("abc".length : Int) > 0
    ∧ "[n] p=abc" ≠ "[n] p=" ++ ("abc".take (0 : Int).toNat ++ "...")) := by
  constructor
  · rfl
  · constructor
    · decide
    · decide

/-- C4 (amended): for every positive limit, a logged value string longer
than the limit is logged truncated to its first `limit` characters followed
by an ellipsis, and one at or below the limit is logged unmodified; this
holds on the success path of `get_param` with verbose true and in
`set_param`.  (For non-positive limits the code logs the full string.) -/
theorem logged_value_truncation {α : Type} (toStr : α → String)
    (st : RosState α) (name : String) (v value : α) (limit : Int)
    (hpos : 0 < limit) (hv : storeLookup st.store name = some v) :
    (∃ st1, Node.get_param toStr st none none name none true limit
        = .ok (some v, st1)
      ∧ st1.log = st.log ++ [LogMsg.info ("[" ++ st.nodeName ++ "] " ++ name ++ "="
          ++ (if ((toStr v).length : Int) > limit
              then (toStr v).take limit.toNat ++ "..." else toStr v))])
  ∧ (∃ st2, Node.set_param toStr st none name value true limit = .ok st2
      ∧ st2.log = st.log ++ [LogMsg.info ("[" ++ st.nodeName ++ "] " ++ name ++ "="
          ++ (if ((toStr value).length : Int) > limit
              then (toStr value).take limit.toNat ++ "..." else toStr value))]) := by
  have htr : ∀ s : String, truncate limit s =
      if (s.length : Int) > limit then s.take limit.toNat ++ "..." else s := by
    intro s
    by_cases hlen : (s.length : Int) > limit
    · simp [truncate, hpos, hlen]
    · simp [truncate, hlen]
  have hget : rospyGetParam st none name = .ok v := by
    simp [rospyGetParam, hv]
  constructor
  · simp only [Node.get_param, hget, if_true]
    exact ⟨_, rfl, by simp [rospyLoginfo, htr]⟩
  · simp only [Node.set_param, rospySetParam]
    exact ⟨_, rfl, by simp [rospyLoginfo, htr]⟩

theorem logged_value_truncation_witness :
    (∃ st1, Node.get_param id sampleState none none "p" none true 2
        = .ok (some "abc", st1)
      ∧ st1.log = sampleState.log ++ [LogMsg.info ("[" ++ sampleState.nodeName
          ++ "] " ++ "p" ++ "="
          ++ (if ((id "abc" : String).length : Int) > 2
              then (id "abc" : String).take (2 : Int).toNat ++ "..." else id "abc"))])
  ∧ (∃ st2, Node.set_param id sampleState none "p" "wxyz" true 2 = .ok st2
      ∧ st2.log = sampleState.log ++ [LogMsg.info ("[" ++ sampleState.nodeName
          ++ "] " ++ "p" ++ "="
          ++ (if ((id "wxyz" : String).length : Int) > 2
              then (id "wxyz" : String).take (2 : Int).toNat ++ "..." else id "wxyz"))]) :=
  logged_value_truncation id sampleState "p" "abc" "wxyz" 2 (by decide) (by rfl)

/-- C5: `set_param` writes exactly the given value to the store (the
logging truncation never affects the stored value), and the truncation in
`get_param` never changes the value returned to the caller. -/
theorem set_param_writes_exact_value {α : Type} (toStr : α → String)
    (st : RosState α) (name : String) (value : α) (verbose verbose2 : Bool)
    (limit limit2 : Int) :
    (∃ st', Node.set_param toStr st none name value verbose limit = .ok st'
      ∧ st'.store = (name, value) :: st.store
      ∧ storeLookup st'.store name = some value)
  ∧ (∀ v, storeLookup st.store name = some v →
      (Node.get_param toStr st none none name none verbose2 limit2).map
        (fun r => r.1) = .ok (some v)) := by
  constructor
  · simp only [Node.set_param, rospySetParam]
    exact ⟨_, rfl, by simp [rospyLoginfo], by simp [rospyLoginfo, storeLookup]⟩
  · intro v hv
    have hget : rospyGetParam st none name = .ok v := by
      simp [rospyGetParam, hv]
    simp only [Node.get_param, hget]
    cases verbose2 <;> rfl

theorem set_param_writes_exact_value_witness :
    (∃ st', Node.set_param id sampleState none "p" "zz" true 2 = .ok st'
      ∧ st'.store = ("p", "zz") :: sampleState.store
      ∧ storeLookup st'.store "p" = some "zz")
  ∧ (Node.get_param id sampleState none none "p" none true 1).map
      (fun r => r.1) = .ok (some "abc") :=
  ⟨(set_param_writes_exact_value id sampleState "p" "zz" true true 2 1).1,
   (set_param_writes_exact_value id sampleState "p" "zz" true true 2 1).2
     "abc" (by rfl)⟩

/-- C6: the constructor delegates to the node-registration primitive with
exactly the three arguments it was given, untransformed, and logs an info
message after the registration call succeeds. -/
theorem init_delegates_and_logs {α : Type} (st : RosState α) (name : String)
    (anonymous disable_signals : Bool) :
    ∃ st', Node.init st none name anonymous disable_signals = .ok st'
      ∧ st'.initCalls = st.initCalls ++ [⟨name, anonymous, disable_signals⟩]
      ∧ st'.log = st.log ++ [LogMsg.info ("[" ++ name ++ "] Initialized.")] := by
  simp only [Node.init, rospyInitNode]
  exact ⟨_, rfl, by simp [rospyLoginfo], by simp [rospyLoginfo]⟩

/-- C7: every framework failure other than the missing-key lookup inside
`get_param` propagates unmodified: initialization errors, remote-store
errors in `get_param` (both in the lookup and in the write-back of a
default), and errors in `set_param` are neither caught nor converted. -/
theorem other_errors_propagate {α : Type} (toStr : α → String)
    (st : RosState α) (msg name : String) (value d : α) (default : Option α)
    (verbose : Bool) (limit : Int) (anonymous disable_signals : Bool) :
    Node.init st (some msg) name anonymous disable_signals
        = .error (.other msg)
  ∧ Node.get_param toStr st (some msg) none name default verbose limit
        = .error (.other msg)
  ∧ (storeLookup st.store name = none →
      Node.get_param toStr st none (some msg) name (some d) verbose limit
        = .error (.other msg))
  ∧ Node.set_param toStr st (some msg) name value verbose limit
        = .error (.other msg) := by
  refine ⟨rfl, rfl, ?_, rfl⟩
  intro h
  have hget : rospyGetParam st none name = .error .keyError := by
    simp [rospyGetParam, h]
  simp [Node.get_param, hget, rospySetParam]

theorem other_errors_propagate_witness :
    Node.init (emptyState) (some "err") "q" false false
        = .error (.other "err")
  ∧ Node.get_param id emptyState (some "err") none "q" none true 3
        = .error (.other "err")
  ∧ Node.get_param id emptyState none (some "err") "q" (some "d") true 3
        = .error (.other "err")
  ∧ Node.set_param id emptyState (some "err") "q" "v" true 3
        = .error (.other "err") :=
  ⟨(other_errors_propagate id emptyState "err" "q" "v" "d" none true 3
      false false).1,
   (other_errors_propagate id emptyState "err" "q" "v" "d" none true 3
      false false).2.1,
   (other_errors_propagate id emptyState "err" "q" "v" "d" none true 3
      false false).2.2.1 (by rfl),
   (other_errors_propagate id emptyState "err" "q" "v" "d" none true 3
      false false).2.2.2⟩

/-- Helper: when the spin loop exits having made `k` spin calls, the `k`-th
shutdown observation was true and every earlier one was false. -/
theorem spinLoop_first_true (obs : List Bool) (k : Nat)
    (h : spinLoop obs = some k) :
    obs[k]? = some true ∧ ∀ j, j < k → obs[j]? = some false := by
  induction obs generalizing k with
  | nil => simp [spinLoop] at h
  | cons b rest ih =>
    cases b with
    | true =>
      simp [spinLoop] at h
      subst h
      exact ⟨by simp, fun j hj => absurd hj (Nat.not_lt_zero j)⟩
    | false =>
      simp [spinLoop] at h
      obtain ⟨k0, hrest, hk⟩ := h
      subst hk
      obtain ⟨h1, h2⟩ := ih k0 hrest
      refine ⟨by simpa using h1, ?_⟩
      intro j hj
      cases j with
      | zero => simp
      | succ j0 => simpa using h2 j0 (Nat.lt_of_succ_lt_succ hj)

/-- C8: `run` never exits its wait loop while the shutdown flag is false:
whenever the loop exits after `k` spins, the shutdown flag was observed
false at every earlier check, true at the `k`-th check, and only then does
`run` log the shutdown message. -/
theorem run_exits_only_on_shutdown {α : Type} (st : RosState α)
    (obs : List Bool) (k : Nat) (st' : RosState α)
    (h : Node.run st obs = some (k, st')) :
    obs[k]? = some true ∧ (∀ j, j < k → obs[j]? = some false)
    ∧ st'.log = st.log
        ++ [LogMsg.info ("[" ++ st.nodeName ++ "] Shutting down...")] := by
  unfold Node.run at h
  cases hs : spinLoop obs with
  | none => rw [hs] at h; exact absurd h (by simp)
  | some k0 =>
    rw [hs] at h
    simp only [Option.some.injEq, Prod.mk.injEq] at h
    obtain ⟨hk, hst⟩ := h
    subst hk
    subst hst
    obtain ⟨h1, h2⟩ := spinLoop_first_true obs k0 hs
    exact ⟨h1, h2, by simp [rospyLoginfo]⟩

theorem run_exits_only_on_shutdown_witness :
    ([false, false, true] : List Bool)[2]? = some true
  ∧ (∀ j, j < 2 → ([false, false, true] : List Bool)[j]? = some false)
  ∧ ({ nodeName := "n", store := [("p", "abc")],
       log := [LogMsg.info "[n] Shutting down..."],
       initCalls := [] } : RosState String).log
      = sampleState.log
        ++ [LogMsg.info ("[" ++ sampleState.nodeName ++ "] Shutting down...")] :=
  run_exits_only_on_shutdown sampleState [false, false, true] 2
    { nodeName := "n", store := [("p", "abc")],
      log := [LogMsg.info "[n] Shutting down..."], initCalls := [] } (by rfl)

/-- C9: `set_param` never consults its verbose argument: the call's result
is identical for any two verbose values, and on the success path the
name=value info log is always emitted. -/
theorem set_param_ignores_verbose {α : Type} (toStr : α → String)
    (st : RosState α) (fault : Option String) (name : String) (value : α)
    (verbose verbose2 : Bool) (limit : Int) :
    Node.set_param toStr st fault name value verbose limit
      = Node.set_param toStr st fault name value verbose2 limit
  ∧ ∃ st', Node.set_param toStr st none name value verbose limit = .ok st'
      ∧ st'.log = st.log ++ [LogMsg.info ("[" ++ st.nodeName ++ "] " ++ name
          ++ "=" ++ truncate limit (toStr value))] := by
  constructor
  · rfl
  · simp only [Node.set_param, rospySetParam]
    exact ⟨_, rfl, by simp [rospyLoginfo]⟩

/-- C10: the value returned by `get_param` and its effect on the parameter
store are independent of the verbose and limit arguments, which influence
logging only. -/
theorem get_param_result_independent_of_logging {α : Type}
    (toStr : α → String) (st : RosState α) (getFault setFault : Option String)
    (name : String) (default : Option α) (v1 v2 : Bool) (l1 l2 : Int) :
    (Node.get_param toStr st getFault setFault name default v1 l1).map
        (fun r => (r.1, r.2.store))
      = (Node.get_param toStr st getFault setFault name default v2 l2).map
        (fun r => (r.1, r.2.store)) := by
  cases hf : rospyGetParam st getFault name with
  | ok v =>
    simp only [Node.get_param, hf]
    cases v1 <;> cases v2 <;> simp [rospyLoginfo, Except.map]
  | error e =>
    cases e with
    | keyError =>
      cases default with
      | none => simp [Node.get_param, hf]
      | some d => simp only [Node.get_param, hf]
    | other m => simp [Node.get_param, hf]
